import Mathlib

/-!
Verification of the LiveRamp catalog-sync and local-search core of the
signals-agent backend.

The development shallowly embeds the Python code of
src/adapters/liveramp.py (class LiveRampAdapter) and
src/sync_liveramp_catalog.py (class LiveRampCatalogSync):

* JSON payloads are modelled by the inductive `JValue`; Python truthiness,
  iteration and defaulting dict access are modelled by `truthy`, `pyIter`
  and `dictGetD`.  A record (a decoded JSON object) is a `PyDict`, a list
  of key/value pairs assumed to have distinct keys.
* Record normalization (`LiveRampAdapter._normalize_segments`, per-record
  body) and row building for the segments table
  (`LiveRampAdapter._store_segments_incremental`, per-record body) become
  `normalizeSegment` and `storeSegmentRow`; Python exceptions become
  `Except.error`.
* Python machine floats are abstracted to `ℚ`; `round(x, 1)` becomes
  `pyRound1` (round half to even at one decimal).
* The paginated fetch loops (`LiveRampAdapter.sync_all_segments` and
  `LiveRampCatalogSync.fetch_all_segments`) become step functions
  `sync_all_segments_step` / `fetch_all_segments_step` driven by `runLoop`
  over a script of remote responses; the SQLite transaction (begin /
  delete / batch inserts / commit / rollback) is modelled by the committed
  table state before and after a run, with injectable insert failures.
* The FTS5 `MATCH` query sanitizer of `LiveRampAdapter.search_segments`
  becomes `sanitizeQuery`; the documented query grammar of the external
  FTS5 engine is modelled by `fts5QueryOk`; the ranked `SELECT ... ORDER
  BY rank` is modelled by `search_segments` (a stable sort by the
  index-native rank, which the engine evaluates deterministically for a
  fixed committed table).
-/

/-- A decoded JSON value, as Python's json.loads produces it.
Numbers are abstracted to `ℚ` (Python ints and floats). -/
inductive JValue : Type where
  | null : JValue
  | bool : Bool → JValue
  | num : ℚ → JValue
  | str : String → JValue
  | arr : List JValue → JValue
  | obj : List (String × JValue) → JValue

/-- A decoded JSON object (a Python dict); keys assumed distinct. -/
abbrev PyDict : Type := List (String × JValue)

/-- Python truthiness (`bool(v)`) of a decoded JSON value. -/
def truthy : JValue → Bool
  | .null => false
  | .bool b => b
  | .num q => decide (q ≠ 0)
  | .str s => !s.isEmpty
  | .arr xs => !xs.isEmpty
  | .obj fs => !fs.isEmpty

/-- Is the value Python's None? -/
def isNull : JValue → Bool
  | .null => true
  | _ => false

/-- Python iteration `for x in v`: lists yield elements, strings yield
one-character strings, dicts yield their keys; anything else raises
TypeError. -/
def pyIter : JValue → Except String (List JValue)
  | .arr xs => .ok xs
  | .str s => .ok (s.data.map (fun c => JValue.str (String.mk [c])))
  | .obj fs => .ok (fs.map (fun kv => JValue.str kv.1))
  | _ => .error "TypeError: object is not iterable"

/-- Python `d.get(k, dflt)` on a dict. -/
def dictGetD (fs : PyDict) (k : String) (dflt : JValue) : JValue :=
  match fs.lookup k with
  | some v => v
  | none => dflt

/-- Python `v == 0` for a decoded JSON value (booleans are ints in Python). -/
def pyEqZero : JValue → Bool
  | .num q => decide (q = 0)
  | .bool b => !b
  | _ => false

/-- Python `a or b`. -/
def pyOr (a b : JValue) : JValue := if truthy a then a else b

/-- Python numeric coercion for arithmetic; non-numbers raise TypeError. -/
def pyToNumber : JValue → Except String ℚ
  | .num q => .ok q
  | .bool b => .ok (if b then 1 else 0)
  | _ => .error "TypeError: unsupported operand type"

/-- Python `str(v)`; numeric and composite renderings are abstracted
(no claim depends on them). -/
def pyStr : JValue → String
  | .null => "None"
  | .bool b => if b then "True" else "False"
  | .str s => s
  | .num _ => "(number)"
  | .arr _ => "(list)"
  | .obj _ => "(dict)"

/-- Round half to even, as Python's `round` ties-to-even. -/
def roundHalfEven (q : ℚ) : ℤ :=
  if q - (⌊q⌋ : ℚ) < 1/2 then ⌊q⌋
  else if (1 : ℚ)/2 < q - (⌊q⌋ : ℚ) then ⌊q⌋ + 1
  else if Even ⌊q⌋ then ⌊q⌋ else ⌊q⌋ + 1

/-- Python `round(x, 1)` (one decimal, half to even; floats abstracted to ℚ). -/
def pyRound1 (q : ℚ) : ℚ := (roundHalfEven (q * 10) : ℚ) / 10

/-- Reach extraction shared verbatim by `_store_segments_incremental` and
`_normalize_segments`:
`reach_info = segment.get('reach', {})`, then if it is a dict,
`input_records = reach_info.get('inputRecords', {})`, then if that is a
dict, `.get('count')`; otherwise None. -/
def extractReach (segment : PyDict) : JValue :=
  match dictGetD segment "reach" (.obj []) with
  | .obj reach_fs =>
    match dictGetD reach_fs "inputRecords" (.obj []) with
    | .obj ir_fs => dictGetD ir_fs "count" .null
    | _ => .null
  | _ => .null

/-- The `for sub in subscriptions` loop of `_store_segments_incremental`:
for each dict sub whose `price` is a dict, overwrite `cpm_price` with
`price.get('cpm')`; if that value is truthy set `has_pricing` and break. -/
def storePricingLoop : List JValue → Bool → JValue → Bool × JValue
  | [], has_pricing, cpm_price => (has_pricing, cpm_price)
  | sub :: rest, has_pricing, cpm_price =>
    match sub with
    | .obj sub_fs =>
      match dictGetD sub_fs "price" (.obj []) with
      | .obj price_fs =>
        let c := dictGetD price_fs "cpm" .null
        if truthy c then (true, c) else storePricingLoop rest has_pricing c
      | _ => storePricingLoop rest has_pricing cpm_price
    | _ => storePricingLoop rest has_pricing cpm_price

/-- Pricing extraction of `_store_segments_incremental`: iterate
`segment.get('subscriptions', [])` (raising if it is not iterable). -/
def extractPricingStore (segment : PyDict) : Except String (Bool × JValue) :=
  (pyIter (dictGetD segment "subscriptions" (.arr []))).map
    (fun subs => storePricingLoop subs false .null)

/-- The category loop of `_store_segments_incremental`: keep `cat['name']`
for dict entries whose name is truthy. -/
def storeCategoriesLoop : List JValue → List JValue
  | [] => []
  | cat :: rest =>
    match cat with
    | .obj cat_fs =>
      let cat_name := dictGetD cat_fs "name" .null
      if truthy cat_name then cat_name :: storeCategoriesLoop rest
      else storeCategoriesLoop rest
    | _ => storeCategoriesLoop rest

/-- The claim-relevant columns of one row of the `segments` table
(`raw_data`, `search_text` and the string join of categories omitted). -/
structure StoredRow : Type where
  segment_id : JValue
  reach_count : JValue
  has_pricing : Bool
  cpm_price : JValue
  categories : List JValue

/-- Row building for one record in `_store_segments_incremental`
(src/adapters/liveramp.py lines 285-330): reach, pricing and category
extraction in source order; iterating a non-iterable `subscriptions` or
`categories` raises. -/
def storeSegmentRow (segment : PyDict) : Except String StoredRow :=
  let reach_count := extractReach segment
  match pyIter (dictGetD segment "subscriptions" (.arr [])) with
  | .error e => .error e
  | .ok subs =>
    match pyIter (dictGetD segment "categories" (.arr [])) with
    | .error e => .error e
    | .ok cats =>
      let p := storePricingLoop subs false .null
      .ok { segment_id := dictGetD segment "id" .null
            reach_count := reach_count
            has_pricing := p.1
            cpm_price := p.2
            categories := storeCategoriesLoop cats }

/-- The `for sub in subscriptions` loop of `_normalize_segments`:
break at the first dict sub whose `price` is a dict, taking
`price.get('cpm') or price.get('value')` (even when that is None). -/
def normPricingLoop : List JValue → JValue
  | [] => .null
  | sub :: rest =>
    match sub with
    | .obj sub_fs =>
      match dictGetD sub_fs "price" (.obj []) with
      | .obj price_fs => pyOr (dictGetD price_fs "cpm" .null) (dictGetD price_fs "value" .null)
      | _ => normPricingLoop rest
    | _ => normPricingLoop rest

/-- The category comprehension of `_normalize_segments`:
`cat.get('name', '')` for dict entries, `str(cat)` otherwise. -/
def normalizeCategoriesList (cats : List JValue) : List JValue :=
  cats.map (fun cat =>
    match cat with
    | .obj cat_fs => dictGetD cat_fs "name" (.str "")
    | c => .str (pyStr c))

/-- The claim-relevant fields of one normalized segment as built by
`_normalize_segments` (string-composed fields such as the prefixed `id`,
`name`, `description` and `data_provider` omitted; `platform_segment_id`
kept as the raw `id` value, its `str()` rendering abstracted). -/
structure NormalizedSegment : Type where
  platform_segment_id : JValue
  base_cpm : JValue
  is_free : Bool
  coverage_percentage : Option ℚ
  has_coverage_data : Bool
  has_pricing_data : Bool
  categories : List JValue

/-- The per-record body of `LiveRampAdapter._normalize_segments`
(src/adapters/liveramp.py lines 596-656), in source order:

* `cpm` from the first dict-priced subscription (iterating a
  non-iterable `subscriptions` raises TypeError);
* `if cpm == 0 or cpm is None: is_free = True; cpm = 0.0`;
* `reach_value` via `extractReach`; `coverage` computed only when
  `reach_value` is truthy, as `round(min(reach_value / 250_000_000 * 100,
  50.0), 1)` (dividing a truthy non-number raises TypeError);
* `categories` list only when the field is a list;
* `has_coverage_data = coverage is not None`,
  `has_pricing_data = cpm is not None` (both evaluated after the
  defaulting above). -/
def normalizeSegment (segment : PyDict) : Except String NormalizedSegment :=
  match pyIter (dictGetD segment "subscriptions" (.arr [])) with
  | .error e => .error e
  | .ok subs =>
    let cpm0 := normPricingLoop subs
    let is_free := pyEqZero cpm0 || isNull cpm0
    let cpm := if pyEqZero cpm0 || isNull cpm0 then JValue.num 0 else cpm0
    let reach_value := extractReach segment
    match (if truthy reach_value then
             (pyToNumber reach_value).map
               (fun r => some (pyRound1 (min (r / 250000000 * 100) 50)))
           else .ok none) with
    | .error e => .error e
    | .ok coverage =>
      .ok { platform_segment_id := dictGetD segment "id" .null
            base_cpm := if isNull cpm then JValue.num 0 else cpm
            is_free := is_free
            coverage_percentage := coverage
            has_coverage_data := coverage.isSome
            has_pricing_data := !(isNull cpm)
            categories :=
              match dictGetD segment "categories" (.arr []) with
              | .arr cats => normalizeCategoriesList cats
              | _ => [] }

/-- `LiveRampAdapter._normalize_segments` over a list of records: the
loop raises out of the whole batch at the first record that raises. -/
def _normalize_segments : List PyDict → Except String (List NormalizedSegment)
  | [] => .ok []
  | s :: rest =>
    match normalizeSegment s with
    | .error e => .error e
    | .ok n =>
      match _normalize_segments rest with
      | .error e => .error e
      | .ok ns => .ok (n :: ns)

/-- One remote response to a page request, as the fetch loops see it:
a 429 rate limit, a non-200/non-429 status, a requests timeout, any
other exception out of the request/JSON decoding, or a 200 body with
`v3_Segments` and `_pagination.after`.  Segment payloads are opaque to
the loops, so they are abstracted to `Nat` identifiers. -/
inductive Resp : Type where
  | rateLimited : Resp
  | httpError : Nat → Resp
  | timeout : Resp
  | netExc : Resp
  | ok : List Nat → Option String → Resp

/-- What one loop iteration does after processing a response. -/
inductive Sig : Type where
  | cont : Sig
  | stop : Sig
  | raised : Sig

/-- How a loop run ended: by a break / end of catalog, by an exception
propagating out of the loop, or because the response script ran out with
the loop still requesting. -/
inductive Halt : Type where
  | ended : Halt
  | raisedErr : Halt
  | starved : Halt

/-- The observable outcome of driving a fetch loop over a script of
responses: the cursors of all page requests issued (in order), the
responses actually consumed, the final loop state, and how it halted. -/
structure RunOut (σ : Type) : Type where
  requests : List (Option String)
  consumed : List Resp
  final : σ
  halt : Halt

/-- Drive a fetch loop: each iteration issues one request carrying the
state's current cursor and consumes the next scripted response. -/
def runLoop {σ : Type} (step : σ → Resp → σ × Sig) (cur : σ → Option String) :
    σ → List Resp → RunOut σ
  | s, [] => ⟨[cur s], [], s, Halt.starved⟩
  | s, r :: rest =>
    match (step s r).2 with
    | Sig.cont =>
      let o := runLoop step cur (step s r).1 rest
      ⟨cur s :: o.requests, r :: o.consumed, o.final, o.halt⟩
    | Sig.stop => ⟨[cur s], [r], (step s r).1, Halt.ended⟩
    | Sig.raised => ⟨[cur s], [r], (step s r).1, Halt.raisedErr⟩

/-- Python truthiness of the optional `after` cursor: `not after_cursor`
holds when it is absent/None or the empty string. -/
def optStrFalsy : Option String → Bool
  | none => true
  | some s => s.isEmpty

/-- Does a 200 response signal end of catalog (no records, or a falsy
`_pagination.after` cursor)? -/
def isEndOfCatalog : Resp → Bool
  | .ok segs after => segs.isEmpty || optStrFalsy after
  | _ => false

/-- `BATCH_SIZE = 1000` in `LiveRampAdapter.sync_all_segments`. -/
def BATCH_SIZE : Nat := 1000

/-- Loop state of `LiveRampAdapter.sync_all_segments`: rows inserted so
far inside the open transaction, how many insert statements have been
issued (used to address injected insert failures), the pending batch,
the `after` cursor and the page counter. -/
structure AState : Type where
  inserted : List Nat
  insertCalls : Nat
  batch : List Nat
  cursor : Option String
  page : Nat

/-- One iteration of the `while True` loop of
`LiveRampAdapter.sync_all_segments` (src/adapters/liveramp.py lines
189-250).  `fail k` injects an exception into the k-th
`_store_segments_incremental` call (the injected failure of the
atomicity property).  On 429: sleep and continue unchanged.  On any
non-200 status or exception: break ("continue with what we have").
On a 200 page: extend the batch; if it reached `BATCH_SIZE`, insert the
first `BATCH_SIZE` rows (an insert exception is caught by the inner
`except` and breaks); read the next cursor; break when it is falsy (absent or empty). -/
def sync_all_segments_step (fail : Nat → Bool) (s : AState) : Resp → AState × Sig
  | .rateLimited => (s, Sig.cont)
  | .httpError _ => (s, Sig.stop)
  | .timeout => (s, Sig.stop)
  | .netExc => (s, Sig.stop)
  | .ok segs after =>
    if segs.isEmpty then (s, Sig.stop)
    else
      let batch := s.batch ++ segs
      if BATCH_SIZE ≤ batch.length then
        if fail s.insertCalls then
          ({ s with batch := batch, insertCalls := s.insertCalls + 1 }, Sig.stop)
        else
          let s' : AState :=
            { inserted := s.inserted ++ batch.take BATCH_SIZE
              insertCalls := s.insertCalls + 1
              batch := batch.drop BATCH_SIZE
              cursor := after
              page := s.page }
          if optStrFalsy after then (s', Sig.stop)
          else ({ s' with page := s.page + 1 }, Sig.cont)
      else
        let s' : AState := { s with batch := batch, cursor := after }
        if optStrFalsy after then (s', Sig.stop)
        else ({ s' with page := s.page + 1 }, Sig.cont)

/-- Loop state of `LiveRampCatalogSync.fetch_all_segments`: accumulated
segments, the `after` cursor and the page counter. -/
structure CState : Type where
  accum : List Nat
  cursor : Option String
  page : Nat

/-- Python truthiness of the optional `max_segments` argument. -/
def pyTruthyNat : Option Nat → Bool
  | none => false
  | some n => decide (n ≠ 0)

/-- One iteration of the `while True` loop of
`LiveRampCatalogSync.fetch_all_segments` (src/sync_liveramp_catalog.py
lines 88-153).  On 429: sleep and continue unchanged.  On a timeout:
sleep 5 and continue (retry the same page).  On a non-200 status or any
other exception: break if at least one page already succeeded, else
raise.  On a 200 page: extend the accumulator, read the next cursor,
truncate and break when a truthy `max_segments` is reached, break when
the cursor is falsy (absent or empty). -/
def fetch_all_segments_step (max_segments : Option Nat) (s : CState) :
    Resp → CState × Sig
  | .rateLimited => (s, Sig.cont)
  | .timeout => (s, Sig.cont)
  | .httpError _ => if 0 < s.page then (s, Sig.stop) else (s, Sig.raised)
  | .netExc => if 0 < s.page then (s, Sig.stop) else (s, Sig.raised)
  | .ok segs after =>
    if segs.isEmpty then (s, Sig.stop)
    else
      let accum := s.accum ++ segs
      let s' : CState := { accum := accum, cursor := after, page := s.page }
      if pyTruthyNat max_segments && decide (max_segments.getD 0 ≤ accum.length) then
        ({ s' with accum := accum.take (max_segments.getD 0) }, Sig.stop)
      else if optStrFalsy after then (s', Sig.stop)
      else ({ s' with page := s.page + 1 }, Sig.cont)

/-- Initial loop state of `sync_all_segments`. -/
def aInit : AState := ⟨[], 0, [], none, 0⟩

/-- Initial loop state of `fetch_all_segments`. -/
def cInit : CState := ⟨[], none, 0⟩

/-- The observable outcome of `LiveRampAdapter.sync_all_segments`: the
committed `segments` table, the `sync_status` rows appended by this run
(as timestamp/status pairs), the page requests issued, whether an
exception propagated to the caller, and whether the loop finished
(false only when the response script was exhausted mid-run). -/
structure AdapterSyncOut : Type where
  segmentsTable : List Nat
  statusRows : List (ℚ × String)
  requests : List (Option String)
  raisedOut : Bool
  finished : Bool

/-- `LiveRampAdapter._is_cache_fresh` (src/adapters/liveramp.py lines
529-548): read the newest `sync_status` row (any status) and compare the
age of its `last_sync` against `max_age_hours`; timestamps modelled in
hours as `ℚ`. -/
def _is_cache_fresh (statusRows : List (ℚ × String)) (now : ℚ)
    (max_age_hours : ℚ) : Bool :=
  match statusRows.getLast? with
  | none => false
  | some row => decide (now - row.1 < max_age_hours)

/-- `LiveRampAdapter.sync_all_segments` (src/adapters/liveramp.py lines
148-279) over a script of remote responses, starting from a committed
table `pre` and sync-status history `statusRows`:

* freshness gate: with `force_refresh` false and a fresh cache, return
  the cached status without issuing any request;
* otherwise run one exclusive transaction that deletes the old rows and
  batch-inserts fetched pages (the fetch loop above);
* after the loop, insert the remaining partial batch (an injected
  failure there raises: the transaction is rolled back, the committed
  table stays `pre`, and no status row is recorded because the exception
  propagates before `_record_sync_status`);
* otherwise commit and record a `success` status row — note the loop
  itself never raises: fetch errors break out and the partial catalog is
  committed. -/
def sync_all_segments (fail : Nat → Bool) (force_refresh : Bool)
    (statusRows : List (ℚ × String)) (now : ℚ)
    (pre : List Nat) (script : List Resp) : AdapterSyncOut :=
  if !force_refresh && _is_cache_fresh statusRows now 24 then
    ⟨pre, statusRows, [], false, true⟩
  else
    let o := runLoop (sync_all_segments_step fail) AState.cursor aInit script
    match o.halt with
    | Halt.starved => ⟨pre, statusRows, o.requests, false, false⟩
    | Halt.raisedErr => ⟨pre, statusRows, o.requests, true, true⟩
    | Halt.ended =>
      if o.final.batch.isEmpty then
        ⟨o.final.inserted, statusRows ++ [(now, "success")], o.requests, false, true⟩
      else if fail o.final.insertCalls then
        ⟨pre, statusRows, o.requests, true, true⟩
      else
        ⟨o.final.inserted ++ o.final.batch, statusRows ++ [(now, "success")],
          o.requests, false, true⟩

/-- One row of the `liveramp_sync_status` table. -/
structure SyncStatusRow : Type where
  sync_started : Option ℚ
  sync_completed : Option ℚ
  status : String
  total_segments : Nat
  error_message : Option String

/-- `LiveRampCatalogSync.needs_sync` (src/sync_liveramp_catalog.py lines
258-279): take the newest row with status `success`; sync is needed when
there is none, its `sync_completed` is null, or its age in hours exceeds
`max_age_hours`. -/
def needs_sync (rows : List SyncStatusRow) (now : ℚ) (max_age_hours : ℚ) : Bool :=
  match (rows.filter (fun row => decide (row.status = "success"))).getLast? with
  | none => true
  | some row =>
    match row.sync_completed with
    | none => true
    | some t => decide (max_age_hours < now - t)

/-- `LiveRampCatalogSync.update_sync_status` for a non-`started` status:
`UPDATE ... WHERE id = (SELECT MAX(id) ...)` seals the newest row. -/
def update_sync_status_seal (rows : List SyncStatusRow) (now : ℚ)
    (total : Nat) (st : String) (err : Option String) : List SyncStatusRow :=
  match rows.getLast? with
  | none => rows
  | some last =>
    rows.dropLast ++
      [{ last with sync_completed := some now, total_segments := total,
                   status := st, error_message := err }]

/-- The observable outcome of `LiveRampCatalogSync.run_sync`. -/
structure RunSyncOut : Type where
  segmentsTable : List Nat
  statusRows : List SyncStatusRow
  requests : List (Option String)
  raisedOut : Bool
  skipped : Bool
  finished : Bool

/-- `LiveRampCatalogSync.run_sync` (src/sync_liveramp_catalog.py lines
325-380) over a script of remote responses:

* freshness gate: with `force` false and `needs_sync` false, print the
  cached statistics and return without issuing any request;
* otherwise insert an `in_progress` status row and run
  `fetch_all_segments`;
* an exception out of the fetch loop, an empty result ("No segments
  retrieved"), or a failure inside `store_segments` (whose transaction
  rolls back, modelled by `storeOk = false`) seals the run as `failed`
  and leaves the committed table at `pre`;
* otherwise `store_segments` replaces the whole table with the fetched
  segments and the run is sealed as `success`. -/
def run_sync (force : Bool) (rows : List SyncStatusRow) (now : ℚ)
    (pre : List Nat) (script : List Resp) (max_segments : Option Nat)
    (storeOk : Bool) : RunSyncOut :=
  if !force && !(needs_sync rows now 24) then
    ⟨pre, rows, [], false, true, true⟩
  else
    let rows1 := rows ++ [⟨some now, none, "in_progress", 0, none⟩]
    let o := runLoop (fetch_all_segments_step max_segments) CState.cursor cInit script
    match o.halt with
    | Halt.starved => ⟨pre, rows1, o.requests, false, false, false⟩
    | Halt.raisedErr =>
      ⟨pre, update_sync_status_seal rows1 now 0 "failed" (some "fetch error"),
        o.requests, true, false, true⟩
    | Halt.ended =>
      if o.final.accum.isEmpty then
        ⟨pre, update_sync_status_seal rows1 now 0 "failed" (some "No segments retrieved"),
          o.requests, true, false, true⟩
      else if storeOk then
        ⟨o.final.accum,
          update_sync_status_seal rows1 now o.final.accum.length "success" none,
          o.requests, false, false, true⟩
      else
        ⟨pre, update_sync_status_seal rows1 now 0 "failed" (some "store error"),
          o.requests, true, false, true⟩

/-- The columns of a committed `segments` row that the ranked search
reads (rowid is the insertion order the FTS5 cursor enumerates). -/
structure SearchRow : Type where
  rowid : Nat
  segment_id : String
  coverage_percentage : Option ℚ
deriving DecidableEq

/-- The ranked query of `LiveRampAdapter.search_segments`
(src/adapters/liveramp.py lines 440-448):
`... WHERE segments_fts MATCH ? ORDER BY rank LIMIT ?`.
The external FTS5 engine supplies the match predicate and the
index-native `rank` value per row; for a fixed committed table the
engine enumerates matches in rowid order and sorts them by `rank` alone
(deterministically, with no further tie-break in the SQL), modelled by a
stable sort.  `rank` ascending is relevance descending
(`relevance_score = rank * -1`). -/
def search_segments (ftsMatch : SearchRow → Bool) (rank : SearchRow → ℚ)
    (rows : List SearchRow) (lim : Nat) : List SearchRow :=
  (List.insertionSort (fun a b => rank a ≤ rank b) (rows.filter ftsMatch)).take lim

/-- Modelled from the spec: the ordering §4.5 prescribes — index-native
relevance descending (rank ascending), ties broken by
`coverage_percentage` descending (a missing coverage reads as 0), then
`segment_id` ascending. -/
def specTieLe (rank : SearchRow → ℚ) (a b : SearchRow) : Prop :=
  rank a < rank b ∨
    (rank a = rank b ∧
      (b.coverage_percentage.getD 0 < a.coverage_percentage.getD 0 ∨
        (a.coverage_percentage.getD 0 = b.coverage_percentage.getD 0 ∧
          a.segment_id ≤ b.segment_id)))

instance (rank : SearchRow → ℚ) : DecidableRel (specTieLe rank) := by
  intro a b
  unfold specTieLe
  infer_instance

/-- Modelled from the spec: `search` results ordered as §4.5 prescribes. -/
def specSearchOrder (ftsMatch : SearchRow → Bool) (rank : SearchRow → ℚ)
    (rows : List SearchRow) (lim : Nat) : List SearchRow :=
  (List.insertionSort (specTieLe rank) (rows.filter ftsMatch)).take lim

/-- The double-quote character. -/
def dq : Char := Char.ofNat 34

/-- The single-quote character. -/
def squot : Char := Char.ofNat 39

/-- Python `s.replace(old, new)` for a single-character `old`. -/
def pyReplaceChar (old : Char) (new : List Char) (s : List Char) : List Char :=
  s.flatMap (fun c => if c = old then new else [c])

/-- The sanitization of `LiveRampAdapter.search_segments`
(src/adapters/liveramp.py lines 431-437): double the quotes, strip
asterisk, question mark and caret.  Strings as character lists. -/
def sanitizeQuery (q : List Char) : List Char :=
  pyReplaceChar '^' []
    (pyReplaceChar '?' []
      (pyReplaceChar '*' []
        (pyReplaceChar squot [squot, squot]
          (pyReplaceChar dq [dq, dq] q))))

/-- Tokens of the FTS5 MATCH query language (external SQLite library;
modelled from its documented query syntax). -/
inductive Fts5Token : Type where
  | lparen : Fts5Token
  | rparen : Fts5Token
  | comma : Fts5Token
  | colon : Fts5Token
  | caret : Fts5Token
  | minus : Fts5Token
  | plus : Fts5Token
  | star : Fts5Token
  | kwAnd : Fts5Token
  | kwOr : Fts5Token
  | kwNot : Fts5Token
  | strTok : List Char → Fts5Token
deriving DecidableEq

/-- A bareword character of the FTS5 query lexer: alphanumeric,
underscore, or a non-ASCII character. -/
def isBarewordChar (c : Char) : Bool := c.isAlphanum || c = '_' || decide (128 ≤ c.toNat)

/-- Lex the inside of a double-quoted FTS5 string; two consecutive
double quotes stand for one.  Returns the content and the rest, or none
on an unterminated string.  Fuel-indexed (fuel larger than the input
length never runs out). -/
def fts5LexQuoted : Nat → List Char → List Char → Option (List Char × List Char)
  | 0, _, _ => none
  | _, [], _ => none
  | fuel + 1, c :: rest, acc =>
    if c = dq then
      match rest with
      | c2 :: rest2 =>
        if c2 = dq then fts5LexQuoted fuel rest2 (acc ++ [c])
        else some (acc, rest)
      | [] => some (acc, [])
    else fts5LexQuoted fuel rest (acc ++ [c])

/-- The FTS5 query lexer (external SQLite library; modelled from its
documented query syntax): whitespace separates tokens; the punctuation
tokens are ( ) , : ^ - + *; a double quote opens a string; a bareword is
a maximal run of bareword characters, with the uppercase words AND, OR,
NOT read as operators; any other character is a lexical error (as FTS5
reports "fts5: syntax error"). -/
def fts5Lex : Nat → List Char → Option (List Fts5Token)
  | 0, _ => none
  | _, [] => some []
  | fuel + 1, c :: rest =>
    if c.isWhitespace then fts5Lex fuel rest
    else if c = '(' then (fts5Lex fuel rest).map (Fts5Token.lparen :: ·)
    else if c = ')' then (fts5Lex fuel rest).map (Fts5Token.rparen :: ·)
    else if c = ',' then (fts5Lex fuel rest).map (Fts5Token.comma :: ·)
    else if c = ':' then (fts5Lex fuel rest).map (Fts5Token.colon :: ·)
    else if c = '^' then (fts5Lex fuel rest).map (Fts5Token.caret :: ·)
    else if c = '-' then (fts5Lex fuel rest).map (Fts5Token.minus :: ·)
    else if c = '+' then (fts5Lex fuel rest).map (Fts5Token.plus :: ·)
    else if c = '*' then (fts5Lex fuel rest).map (Fts5Token.star :: ·)
    else if c = dq then
      match fts5LexQuoted (rest.length + 1) rest [] with
      | none => none
      | some (content, rest2) =>
        (fts5Lex fuel rest2).map (Fts5Token.strTok content :: ·)
    else if isBarewordChar c then
      let w := (c :: rest).takeWhile isBarewordChar
      let rest2 := (c :: rest).dropWhile isBarewordChar
      let tok :=
        if w = "AND".data then Fts5Token.kwAnd
        else if w = "OR".data then Fts5Token.kwOr
        else if w = "NOT".data then Fts5Token.kwNot
        else Fts5Token.strTok w
      (fts5Lex fuel rest2).map (tok :: ·)
    else none

mutual

/-- FTS5 query expressions (external SQLite library; modelled from its
documented query syntax): an expression is a juxtaposition sequence,
optionally continued by the AND/OR/NOT operators, each of which needs an
operand on both sides.  All parsing functions consume from a token list
and return the unconsumed rest, or none on a syntax error; they are
fuel-indexed, with fuel bounding the recursion depth (quadratic fuel in
the token count is ample). -/
def fts5ParseExpr : Nat → List Fts5Token → Option (List Fts5Token)
  | 0, _ => none
  | fuel + 1, ts =>
    match fts5ParseSeq fuel ts with
    | none => none
    | some rest => fts5ParseExprTail fuel rest

/-- Zero or more `(AND|OR|NOT) sequence` continuations. -/
def fts5ParseExprTail : Nat → List Fts5Token → Option (List Fts5Token)
  | 0, _ => none
  | fuel + 1, ts =>
    match ts with
    | t :: rest =>
      if t = Fts5Token.kwAnd || t = Fts5Token.kwOr || t = Fts5Token.kwNot then
        match fts5ParseSeq fuel rest with
        | none => none
        | some rest2 => fts5ParseExprTail fuel rest2
      else some ts
    | [] => some []

/-- One or more primaries juxtaposed (implicit AND). -/
def fts5ParseSeq : Nat → List Fts5Token → Option (List Fts5Token)
  | 0, _ => none
  | fuel + 1, ts =>
    match fts5ParsePrim fuel ts with
    | none => none
    | some rest => fts5ParseSeqTail fuel rest

/-- Further juxtaposed primaries, ending before anything that is not one. -/
def fts5ParseSeqTail : Nat → List Fts5Token → Option (List Fts5Token)
  | 0, _ => none
  | fuel + 1, ts =>
    match fts5ParsePrim fuel ts with
    | none => some ts
    | some rest => fts5ParseSeqTail fuel rest

/-- A primary: a parenthesized expression, a (possibly negated) column
filter applied to a primary, an initial-token match, or a phrase. -/
def fts5ParsePrim : Nat → List Fts5Token → Option (List Fts5Token)
  | 0, _ => none
  | fuel + 1, ts =>
    match ts with
    | Fts5Token.lparen :: rest =>
      match fts5ParseExpr fuel rest with
      | some (Fts5Token.rparen :: rest2) => some rest2
      | _ => none
    | Fts5Token.minus :: Fts5Token.strTok _ :: Fts5Token.colon :: rest =>
      fts5ParsePrim fuel rest
    | Fts5Token.strTok _ :: Fts5Token.colon :: rest => fts5ParsePrim fuel rest
    | Fts5Token.caret :: rest => fts5ParsePhrase fuel rest
    | _ => fts5ParsePhrase fuel ts

/-- A phrase: strings joined by `+`, each with an optional trailing `*`. -/
def fts5ParsePhrase : Nat → List Fts5Token → Option (List Fts5Token)
  | 0, _ => none
  | fuel + 1, ts =>
    match ts with
    | Fts5Token.strTok _ :: rest =>
      let rest1 := match rest with
        | Fts5Token.star :: r => r
        | _ => rest
      match rest1 with
      | Fts5Token.plus :: rest2 => fts5ParsePhrase fuel rest2
      | _ => some rest1
    | _ => none

end

/-- Does the FTS5 engine accept the string as a MATCH query (external
SQLite library; modelled from its documented query syntax)?  An empty
query, a dangling operator, an unbalanced parenthesis or a stray
character is a syntax error, which sqlite3 surfaces as an
OperationalError out of the SELECT. -/
def fts5QueryOk (q : List Char) : Bool :=
  match fts5Lex (q.length + 1) q with
  | none => false
  | some ts =>
    match fts5ParseExpr ((ts.length + 1) * (ts.length + 1)) ts with
    | some [] => true
    | _ => false

theorem runLoop_requests_cons {σ : Type} (step : σ → Resp → σ × Sig)
    (cur : σ → Option String) (s : σ) (script : List Resp) :
    ∃ t, (runLoop step cur s script).requests = cur s :: t := by
  cases script with
  | nil => exact ⟨[], rfl⟩
  | cons r rest =>
    unfold runLoop
    cases h : (step s r).2 <;> simp [h]

theorem runLoop_end_of_catalog_stops {σ : Type} (step : σ → Resp → σ × Sig)
    (cur : σ → Option String)
    (hstep : ∀ s r, (step s r).2 = Sig.cont → isEndOfCatalog r = false) :
    ∀ (script : List Resp) (s : σ) (i : Nat) (r : Resp),
      (runLoop step cur s script).consumed.get? i = some r →
      isEndOfCatalog r = true →
      (runLoop step cur s script).requests.length = i + 1 := by
  intro script
  induction script with
  | nil =>
    intro s i r h _
    simp [runLoop] at h
  | cons hd tl ih =>
    intro s i r h hend
    unfold runLoop at h ⊢
    cases hsig : (step s hd).2 with
    | cont =>
      simp only [hsig] at h ⊢
      cases i with
      | zero =>
        simp only [List.get?_cons_zero, Option.some.injEq] at h
        subst h
        rw [hstep s hd hsig] at hend
        cases hend
      | succ j =>
        simp only [List.get?_cons_succ] at h
        simp only [List.length_cons]
        rw [ih _ j r h hend]
    | stop =>
      simp only [hsig] at h ⊢
      cases i with
      | zero => rfl
      | succ j => simp at h
    | raised =>
      simp only [hsig] at h ⊢
      cases i with
      | zero => rfl
      | succ j => simp at h

theorem sync_step_cont_not_end (fail : Nat → Bool) (s : AState) (r : Resp) :
    (sync_all_segments_step fail s r).2 = Sig.cont → isEndOfCatalog r = false := by
  intro h
  cases r with
  | rateLimited => rfl
  | httpError c => simp [sync_all_segments_step] at h
  | timeout => simp [sync_all_segments_step] at h
  | netExc => simp [sync_all_segments_step] at h
  | ok segs after =>
    simp only [sync_all_segments_step] at h
    split_ifs at h with h1 h2 h3 h4 h5 <;> simp_all [isEndOfCatalog]

theorem fetch_step_cont_not_end (m : Option Nat) (s : CState) (r : Resp) :
    (fetch_all_segments_step m s r).2 = Sig.cont → isEndOfCatalog r = false := by
  intro h
  cases r with
  | rateLimited => rfl
  | timeout => rfl
  | httpError c =>
    simp only [fetch_all_segments_step] at h
    split_ifs at h
  | netExc =>
    simp only [fetch_all_segments_step] at h
    split_ifs at h
  | ok segs after =>
    simp only [fetch_all_segments_step] at h
    split_ifs at h with h1 h2 h3 <;> simp_all [isEndOfCatalog]

/-- C2: the paginated fetch loop terminates on the end-of-catalog
signal: in both fetch loops, whenever the i-th consumed response has
zero records or no next cursor, the run issues exactly i+1 page requests
— no request follows such a response. -/
theorem fetch_loop_terminates_on_end_of_catalog :
    (∀ (fail : Nat → Bool) (s : AState) (script : List Resp) (i : Nat) (r : Resp),
       (runLoop (sync_all_segments_step fail) AState.cursor s script).consumed.get? i = some r →
       isEndOfCatalog r = true →
       (runLoop (sync_all_segments_step fail) AState.cursor s script).requests.length = i + 1)
  ∧ (∀ (m : Option Nat) (s : CState) (script : List Resp) (i : Nat) (r : Resp),
       (runLoop (fetch_all_segments_step m) CState.cursor s script).consumed.get? i = some r →
       isEndOfCatalog r = true →
       (runLoop (fetch_all_segments_step m) CState.cursor s script).requests.length = i + 1) := by
  constructor
  · intro fail s script i r h hend
    exact runLoop_end_of_catalog_stops _ _ (sync_step_cont_not_end fail) script s i r h hend
  · intro m s script i r h hend
    exact runLoop_end_of_catalog_stops _ _ (fetch_step_cont_not_end m) script s i r h hend

/-- Witness for C2 at a concrete one-page script whose single response
carries no next cursor: both loops issue exactly one request. -/
theorem fetch_loop_terminates_on_end_of_catalog_witness :
    ((runLoop (sync_all_segments_step (fun _ => false)) AState.cursor aInit
        [Resp.ok [5] none]).consumed.get? 0 = some (Resp.ok [5] none))
  ∧ isEndOfCatalog (Resp.ok [5] none) = true
  ∧ ((runLoop (sync_all_segments_step (fun _ => false)) AState.cursor aInit
        [Resp.ok [5] none]).requests.length = 0 + 1)
  ∧ ((runLoop (fetch_all_segments_step none) CState.cursor cInit
        [Resp.ok [5] none]).requests.length = 0 + 1) :=
  ⟨rfl, rfl,
   fetch_loop_terminates_on_end_of_catalog.1 (fun _ => false) aInit
     [Resp.ok [5] none] 0 (Resp.ok [5] none) rfl rfl,
   fetch_loop_terminates_on_end_of_catalog.2 none cInit
     [Resp.ok [5] none] 0 (Resp.ok [5] none) rfl rfl⟩

/-- C4: a rate-limited response advances nothing: both loop steps leave
the state (cursor, accumulated records, open-transaction inserts)
unchanged and continue, and the next real request repeats exactly the
cursor of the rate-limited request. -/
theorem rate_limit_does_not_advance_cursor :
    (∀ (fail : Nat → Bool) (s : AState),
       sync_all_segments_step fail s Resp.rateLimited = (s, Sig.cont))
  ∧ (∀ (m : Option Nat) (s : CState),
       fetch_all_segments_step m s Resp.rateLimited = (s, Sig.cont))
  ∧ (∀ (fail : Nat → Bool) (s : AState) (rest : List Resp),
       (runLoop (sync_all_segments_step fail) AState.cursor s
          (Resp.rateLimited :: rest)).requests.take 2 = [s.cursor, s.cursor])
  ∧ (∀ (m : Option Nat) (s : CState) (rest : List Resp),
       (runLoop (fetch_all_segments_step m) CState.cursor s
          (Resp.rateLimited :: rest)).requests.take 2 = [s.cursor, s.cursor]) := by
  refine ⟨fun _ _ => rfl, fun _ _ => rfl, ?_, ?_⟩
  · intro fail s rest
    obtain ⟨t, ht⟩ := runLoop_requests_cons (sync_all_segments_step fail) AState.cursor s rest
    simp [runLoop, sync_all_segments_step, ht]
  · intro m s rest
    obtain ⟨t, ht⟩ := runLoop_requests_cons (fetch_all_segments_step m) CState.cursor s rest
    simp [runLoop, fetch_all_segments_step, ht]

theorem update_sync_status_seal_getLast (rows : List SyncStatusRow)
    (x : SyncStatusRow) (now : ℚ) (total : Nat) (st : String) (err : Option String) :
    ((update_sync_status_seal (rows ++ [x]) now total st err).getLast?).map
        SyncStatusRow.status = some st := by
  unfold update_sync_status_seal
  rw [List.getLast?_concat]
  simp [List.getLast?_concat]

/-- The script of the C1 counterexample: one full page of 1000 records
(one `BATCH_SIZE` batch) followed by a 500 response — the injected
failure after 1 of the run's batches has been inserted. -/
def cexScriptA : List Resp :=
  [Resp.ok (List.range 1000) (some "c1"), Resp.httpError 500]

set_option maxRecDepth 100000 in
/-- C1 counterexample: in `LiveRampAdapter.sync_all_segments`, a fetch
failure (HTTP 500) arriving after one batch of 1000 records has been
inserted does not roll the transaction back: starting from a committed
table `[7]`, the run commits the 1000 partially fetched records
(destroying the pre-sync state) and records the run as `success` —
not as failed, and the committed contents are not the pre-sync state. -/
theorem sync_partial_fetch_commits_success_cex :
    sync_all_segments (fun _ => false) true [] 0 [7] cexScriptA =
      ⟨List.range 1000, [(0, "success")], [none, some "c1"], false, true⟩
  ∧ List.range 1000 ≠ [7] := by
  refine ⟨rfl, ?_⟩
  intro h
  have hlen := congrArg List.length h
  simp [List.length_range] at hlen

/-- C1 amended: a sync run whose storage phase raises does preserve the
pre-sync state: an injected batch-insert failure in the adapter rolls
the transaction back, leaving the committed table equal to its pre-sync
state (and the adapter records no status row, the exception propagating
before `_record_sync_status`); in the catalog-sync orchestrator
`run_sync`, any run that proceeds past the freshness gate and fails
(fetch raise, empty fetch, or store failure with rollback) leaves the
committed table at its pre-sync state and seals the run as `failed`. -/
theorem sync_storage_failure_rolls_back :
    (∀ (fail : Nat → Bool) (force : Bool) (rows : List (ℚ × String)) (now : ℚ)
       (pre : List Nat) (script : List Resp),
       (sync_all_segments fail force rows now pre script).raisedOut = true →
       (sync_all_segments fail force rows now pre script).segmentsTable = pre ∧
       (sync_all_segments fail force rows now pre script).statusRows = rows)
  ∧ (∀ (force : Bool) (rows : List SyncStatusRow) (now : ℚ) (pre : List Nat)
       (script : List Resp) (m : Option Nat),
       (run_sync force rows now pre script m false).skipped = false →
       (run_sync force rows now pre script m false).finished = true →
       (run_sync force rows now pre script m false).segmentsTable = pre ∧
       ((run_sync force rows now pre script m false).statusRows.getLast?).map
           SyncStatusRow.status = some "failed") := by
  constructor
  · intro fail force rows now pre script
    simp only [sync_all_segments]
    split
    · intro h; simp at h
    · split
      · intro h; simp at h
      · intro _; exact ⟨rfl, rfl⟩
      · split
        · intro h; simp at h
        · split
          · intro _; exact ⟨rfl, rfl⟩
          · intro h; simp at h
  · intro force rows now pre script m
    simp only [run_sync]
    split
    · intro h _; simp at h
    · split
      · intro _ h; simp at h
      · intro _ _
        exact ⟨rfl, update_sync_status_seal_getLast rows _ now 0 "failed" _⟩
      · split
        · intro _ _
          exact ⟨rfl, update_sync_status_seal_getLast rows _ now 0 "failed" _⟩
        · split
          · rename_i hst
            exact absurd hst (by simp)
          · intro _ _
            exact ⟨rfl, update_sync_status_seal_getLast rows _ now 0 "failed" _⟩

/-- Witness for C1's amended theorem: an adapter run whose final batch
insert fails keeps the committed table `[3]` and records nothing; a
forced catalog-sync run whose store fails keeps `[3]` and is sealed
`failed`. -/
theorem sync_storage_failure_rolls_back_witness :
    ((sync_all_segments (fun _ => true) true [] 0 [3] [Resp.ok [1] none]).raisedOut = true)
  ∧ (sync_all_segments (fun _ => true) true [] 0 [3] [Resp.ok [1] none]).segmentsTable = [3]
  ∧ (sync_all_segments (fun _ => true) true [] 0 [3] [Resp.ok [1] none]).statusRows = []
  ∧ ((run_sync true [] 0 [3] [Resp.ok [1] none] none false).skipped = false)
  ∧ ((run_sync true [] 0 [3] [Resp.ok [1] none] none false).finished = true)
  ∧ (run_sync true [] 0 [3] [Resp.ok [1] none] none false).segmentsTable = [3]
  ∧ ((run_sync true [] 0 [3] [Resp.ok [1] none] none false).statusRows.getLast?).map
        SyncStatusRow.status = some "failed" :=
  ⟨rfl,
   (sync_storage_failure_rolls_back.1 (fun _ => true) true [] 0 [3] [Resp.ok [1] none] rfl).1,
   (sync_storage_failure_rolls_back.1 (fun _ => true) true [] 0 [3] [Resp.ok [1] none] rfl).2,
   rfl, rfl,
   (sync_storage_failure_rolls_back.2 true [] 0 [3] [Resp.ok [1] none] none rfl rfl).1,
   (sync_storage_failure_rolls_back.2 true [] 0 [3] [Resp.ok [1] none] none rfl rfl).2⟩

/-- C3 counterexample: a 500 response on the second page is retried zero
times (the run issues exactly the two requests shown, never repeating
the failed page's cursor) and no page-level failure is surfaced: the
loop ends normally with the one fetched page, and a forced `run_sync`
over the same script commits that partial catalog and seals the run as
`success` — the failed page is skipped and the run continues with the
pages fetched so far, contrary to the claim. -/
theorem fetch_5xx_not_retried_cex :
    runLoop (fetch_all_segments_step none) CState.cursor cInit
        [Resp.ok [1] (some "c1"), Resp.httpError 500] =
      ⟨[none, some "c1"], [Resp.ok [1] (some "c1"), Resp.httpError 500],
        ⟨[1], some "c1", 1⟩, Halt.ended⟩
  ∧ (run_sync true [] 0 [7] [Resp.ok [1] (some "c1"), Resp.httpError 500]
        none true).segmentsTable = [1]
  ∧ ((run_sync true [] 0 [7] [Resp.ok [1] (some "c1"), Resp.httpError 500]
        none true).statusRows.getLast?).map SyncStatusRow.status = some "success" :=
  ⟨rfl, rfl, rfl⟩

/-- C3 amended: retries are not bounded and 5xx is not retried at all —
the catalog fetch loop retries the same page without bound on timeouts
and rate limits (state unchanged, loop continues); on a non-200
response or other exception it performs zero retries: it raises when no
page has succeeded yet and otherwise stops, continuing the run with the
pages fetched so far; the adapter loop stops on any non-200 or
exception and likewise continues with the pages fetched so far. -/
theorem fetch_retry_behavior :
    (∀ (m : Option Nat) (s : CState),
       fetch_all_segments_step m s Resp.timeout = (s, Sig.cont)
       ∧ fetch_all_segments_step m s Resp.rateLimited = (s, Sig.cont))
  ∧ (∀ (m : Option Nat) (s : CState) (c : Nat),
       fetch_all_segments_step m s (Resp.httpError c) =
         (if 0 < s.page then (s, Sig.stop) else (s, Sig.raised))
       ∧ fetch_all_segments_step m s Resp.netExc =
         (if 0 < s.page then (s, Sig.stop) else (s, Sig.raised)))
  ∧ (∀ (fail : Nat → Bool) (s : AState) (c : Nat),
       sync_all_segments_step fail s (Resp.httpError c) = (s, Sig.stop)
       ∧ sync_all_segments_step fail s Resp.timeout = (s, Sig.stop)
       ∧ sync_all_segments_step fail s Resp.netExc = (s, Sig.stop)) :=
  ⟨fun _ _ => ⟨rfl, rfl⟩, fun _ _ _ => ⟨rfl, rfl⟩, fun _ _ _ => ⟨rfl, rfl, rfl⟩⟩

/-- The record of the C5 failing input: `subscriptions` present but null. -/
def nullSubsRecord : PyDict := [("subscriptions", JValue.null)]

/-- C5: the claim (normalization never raises, whatever shape the
optional nested fields take, including null in place of a list) is right
per the spec, but the code violates it: `for sub in subscriptions`
iterates `segment.get('subscriptions', [])` without an isinstance guard,
so a record whose `subscriptions` field is null raises TypeError — in
the normalizer, in the store-row builder, and (aborting the whole batch)
in `_normalize_segments`.  A record with the optional fields simply
absent is handled: coverage null with `has_coverage_data` false. -/
theorem normalize_null_subscriptions_raises :
    normalizeSegment nullSubsRecord = .error "TypeError: object is not iterable"
  ∧ storeSegmentRow nullSubsRecord = .error "TypeError: object is not iterable"
  ∧ _normalize_segments [nullSubsRecord] = .error "TypeError: object is not iterable"
  ∧ normalizeSegment [("id", JValue.num 7)] =
      .ok ⟨JValue.num 7, JValue.num 0, true, none, false, true, []⟩ :=
  ⟨rfl, rfl, rfl, rfl⟩

/-- C6: the claim (search never raises, for adversarial strings
including FTS5 boolean keywords and the empty string) is right per the
spec, but the sanitization only doubles quotes and strips asterisk,
question mark and caret: the bareword `AND` and the empty string pass
through `sanitizeQuery` unchanged and are not well-formed FTS5 MATCH
queries, so the SELECT raises an OperationalError; a plain word such as
`cars` is well-formed, so the failure is about operator tokens, not the
grammar model rejecting everything. -/
theorem sanitize_passes_fts5_operators :
    sanitizeQuery "AND".data = "AND".data
  ∧ fts5QueryOk ("AND".data) = false
  ∧ sanitizeQuery [] = []
  ∧ fts5QueryOk [] = false
  ∧ fts5QueryOk ("cars".data) = true
  ∧ sanitizeQuery "cars".data = "cars".data
  ∧ fts5QueryOk (sanitizeQuery "AND".data) = false :=
  ⟨rfl, rfl, rfl, rfl, rfl, rfl, rfl⟩

/-- The record of the C7 counterexample: a known reach count of 0. -/
def zeroReachRecord : PyDict :=
  [("id", JValue.num 1),
   ("reach", JValue.obj [("inputRecords", JValue.obj [("count", JValue.num 0)])])]

/-- C7 counterexample: a record whose known reach count is 0 does not
get the computed coverage 0.0 with `has_coverage_data` true that the
claim requires; `if reach_value:` treats the falsy 0 like an unknown
reach, yielding coverage null and `has_coverage_data` false. -/
theorem zero_reach_treated_as_unknown_cex :
    extractReach zeroReachRecord = JValue.num 0
  ∧ (normalizeSegment zeroReachRecord).map NormalizedSegment.has_coverage_data =
      .ok false
  ∧ (normalizeSegment zeroReachRecord).map NormalizedSegment.coverage_percentage =
      .ok none
  ∧ (Except.ok false : Except String Bool) ≠ .ok true :=
  ⟨rfl, rfl, rfl, by simp⟩

/-- C7 amended: coverage is computed exactly when the extracted reach
value is truthy — for a numeric reach `r ≠ 0` the coverage is the
claimed pure function `round(min(r / 250_000_000 * 100, 50.0), 1)` with
`has_coverage_data` true; a falsy reach (absent, null, or a known 0) is
treated as unknown: coverage null and `has_coverage_data` false; and on
every normalized record `has_coverage_data` holds exactly when a
coverage number was computed. -/
theorem coverage_computed_iff_truthy_reach :
    (∀ (segment : PyDict) (subs : List JValue),
       pyIter (dictGetD segment "subscriptions" (JValue.arr [])) = .ok subs →
       (∀ r : ℚ, extractReach segment = JValue.num r → r ≠ 0 →
          (normalizeSegment segment).map NormalizedSegment.coverage_percentage =
            .ok (some (pyRound1 (min (r / 250000000 * 100) 50)))
          ∧ (normalizeSegment segment).map NormalizedSegment.has_coverage_data =
            .ok true)
       ∧ (truthy (extractReach segment) = false →
          (normalizeSegment segment).map NormalizedSegment.coverage_percentage =
            .ok none
          ∧ (normalizeSegment segment).map NormalizedSegment.has_coverage_data =
            .ok false))
  ∧ (∀ (segment : PyDict) (ns : NormalizedSegment),
       normalizeSegment segment = .ok ns →
       (ns.has_coverage_data = true ↔ ns.coverage_percentage ≠ none)) := by
  constructor
  · intro segment subs hsubs
    constructor
    · intro r hr hr0
      constructor <;>
        simp [normalizeSegment, hsubs, hr, truthy, hr0, pyToNumber, Except.map]
    · intro hfalse
      constructor <;>
        simp [normalizeSegment, hsubs, hfalse, Except.map]
  · intro segment ns h
    simp only [normalizeSegment] at h
    split at h
    · exact absurd h (by simp)
    · split at h
      · exact absurd h (by simp)
      · rw [← Except.ok.inj h]
        simp [Option.isSome_iff_ne_none]

/-- The record of the C7 witness: a known reach of 5,000,000. -/
def reachFiveMRecord : PyDict :=
  [("id", JValue.num 1),
   ("reach", JValue.obj [("inputRecords", JValue.obj [("count", JValue.num 5000000)])])]

/-- Witness for C7's amended theorem at a concrete record with numeric
reach 5,000,000. -/
theorem coverage_computed_iff_truthy_reach_witness :
    (pyIter (dictGetD reachFiveMRecord "subscriptions" (JValue.arr [])) = .ok [])
  ∧ extractReach reachFiveMRecord = JValue.num 5000000
  ∧ ((5000000 : ℚ) ≠ 0)
  ∧ (normalizeSegment reachFiveMRecord).map NormalizedSegment.coverage_percentage =
      .ok (some (pyRound1 (min ((5000000 : ℚ) / 250000000 * 100) 50)))
  ∧ (normalizeSegment reachFiveMRecord).map NormalizedSegment.has_coverage_data =
      .ok true :=
  ⟨rfl, rfl, by decide,
   ((coverage_computed_iff_truthy_reach.1 reachFiveMRecord [] rfl).1 5000000 rfl
      (by decide)).1,
   ((coverage_computed_iff_truthy_reach.1 reachFiveMRecord [] rfl).1 5000000 rfl
      (by decide)).2⟩

theorem storePricingLoop_flag (subs : List JValue) : ∀ (c0 : JValue),
    truthy c0 = false →
    (storePricingLoop subs false c0).1 = truthy (storePricingLoop subs false c0).2 := by
  induction subs with
  | nil => intro c0 h; exact h.symm
  | cons sub rest ih =>
    intro c0 h
    cases sub with
    | obj sub_fs =>
      cases hp : dictGetD sub_fs "price" (JValue.obj []) with
      | obj price_fs =>
        by_cases ht : truthy (dictGetD price_fs "cpm" JValue.null) = true
        · simp [storePricingLoop, hp, ht]
        · have ht2 : truthy (dictGetD price_fs "cpm" JValue.null) = false := by
            simpa using ht
          simp only [storePricingLoop, hp, ht2]
          exact ih _ ht2
      | null => simp only [storePricingLoop, hp]; exact ih c0 h
      | bool b => simp only [storePricingLoop, hp]; exact ih c0 h
      | num q => simp only [storePricingLoop, hp]; exact ih c0 h
      | str s => simp only [storePricingLoop, hp]; exact ih c0 h
      | arr xs => simp only [storePricingLoop, hp]; exact ih c0 h
    | null => exact ih c0 h
    | bool b => exact ih c0 h
    | num q => exact ih c0 h
    | str s => exact ih c0 h
    | arr xs => exact ih c0 h

/-- C8 counterexample: a record with no priced offer at all is marked
free (`is_free` true, cpm 0.0) by the normalizer, but its
`has_pricing_data` flag is true, not the false the claim requires —
the flag is computed from `cpm is not None` after `cpm` has already
been defaulted to 0.0, so it is constantly true. -/
theorem unpriced_has_pricing_data_true_cex :
    (normalizeSegment [("id", JValue.num 1)]).map NormalizedSegment.has_pricing_data =
      .ok true
  ∧ (normalizeSegment [("id", JValue.num 1)]).map NormalizedSegment.is_free = .ok true
  ∧ (normalizeSegment [("id", JValue.num 1)]).map NormalizedSegment.base_cpm =
      .ok (JValue.num 0)
  ∧ (Except.ok true : Except String Bool) ≠ .ok false :=
  ⟨rfl, rfl, rfl, by simp⟩

/-- C8 amended: in the stored `segments` row, pricing extraction scans
the subscriptions for the first truthy cpm and `has_pricing` holds
exactly when the stored `cpm_price` is truthy (for numeric cpm values:
non-null and nonzero, the derived free sentinel); an unpriced record
stores `cpm_price` null while an explicitly zero-priced record stores
0, which are distinct.  In the normalized output, the cpm is taken from
the first subscription whose price is a dict even if it carries no
price, records without a truthy price are marked free with cpm 0.0,
and `has_pricing_data` is constantly true. -/
theorem pricing_extraction_behavior :
    (∀ subs : List JValue,
       (storePricingLoop subs false JValue.null).1 =
         truthy (storePricingLoop subs false JValue.null).2)
  ∧ extractPricingStore [] = .ok (false, JValue.null)
  ∧ extractPricingStore
      [("subscriptions",
        JValue.arr [JValue.obj [("price", JValue.obj [("cpm", JValue.num 0)])]])] =
      .ok (false, JValue.num 0)
  ∧ JValue.num 0 ≠ JValue.null
  ∧ normPricingLoop
      [JValue.obj [("price", JValue.obj [])],
       JValue.obj [("price", JValue.obj [("cpm", JValue.num 5)])]] = JValue.null
  ∧ (∀ (segment : PyDict) (ns : NormalizedSegment),
       normalizeSegment segment = .ok ns → ns.has_pricing_data = true) := by
  refine ⟨fun subs => storePricingLoop_flag subs JValue.null rfl, rfl, rfl,
    by simp, rfl, ?_⟩
  intro segment ns h
  simp only [normalizeSegment] at h
  split at h
  · exact absurd h (by simp)
  · split at h
    · exact absurd h (by simp)
    · rw [← Except.ok.inj h]
      dsimp only
      split
      · rfl
      · rename_i hc
        simp only [Bool.or_eq_true, not_or, Bool.not_eq_true] at hc
        simpa [isNull] using hc.2

/-- Witness for C8's amended theorem: the unpriced empty record
normalizes successfully and its `has_pricing_data` is true. -/
theorem pricing_extraction_behavior_witness :
    normalizeSegment [] =
      .ok ⟨JValue.null, JValue.num 0, true, none, false, true, []⟩
  ∧ (⟨JValue.null, JValue.num 0, true, none, false, true, []⟩ :
      NormalizedSegment).has_pricing_data = true :=
  ⟨rfl, pricing_extraction_behavior.2.2.2.2.2 [] _ rfl⟩

/-- The committed rows of the C9 counterexample, in rowid (insertion)
order: row "b" with coverage 1.0 inserted before row "a" with coverage
2.0. -/
def cexRows : List SearchRow := [⟨1, "b", some 1⟩, ⟨2, "a", some 2⟩]

/-- C9 counterexample: with both rows matching at equal index rank, the
SQL `ORDER BY rank` returns them in index enumeration order, ["b", "a"],
while the claimed tie-break (coverage descending, then segment_id
ascending) requires ["a", "b"] — the code has no tie-break clause, so
the claimed ordering does not hold. -/
theorem search_order_ignores_tiebreak_cex :
    search_segments (fun _ => true) (fun _ => (-1 : ℚ)) cexRows 50 =
      [⟨1, "b", some 1⟩, ⟨2, "a", some 2⟩]
  ∧ specSearchOrder (fun _ => true) (fun _ => (-1 : ℚ)) cexRows 50 =
      [⟨2, "a", some 2⟩, ⟨1, "b", some 1⟩]
  ∧ ([⟨1, "b", some 1⟩, ⟨2, "a", some 2⟩] : List SearchRow) ≠
      [⟨2, "a", some 2⟩, ⟨1, "b", some 1⟩] := by
  refine ⟨by decide, by decide, by decide⟩

/-- C9 amended: `search_segments` orders its results by the index-native
rank alone (rank ascending, i.e. relevance descending) — equal-rank rows
stay in index enumeration order with no coverage or segment_id
tie-break; an un-truncated result is a permutation of the matching rows;
and the output is a function of the committed rows, the match set and
the rank assignment, so repeated calls over the same committed catalog
and query return the identical ordering. -/
theorem search_order_rank_only :
    (∀ (ftsMatch : SearchRow → Bool) (rank : SearchRow → ℚ)
       (rows : List SearchRow) (lim : Nat),
       List.Sorted (fun a b => rank a ≤ rank b)
         (search_segments ftsMatch rank rows lim))
  ∧ (∀ (ftsMatch : SearchRow → Bool) (rank : SearchRow → ℚ)
       (rows : List SearchRow) (lim : Nat),
       (rows.filter ftsMatch).length ≤ lim →
       (search_segments ftsMatch rank rows lim).Perm (rows.filter ftsMatch)) := by
  constructor
  · intro ftsMatch rank rows lim
    have htot : IsTotal SearchRow (fun a b => rank a ≤ rank b) :=
      ⟨fun a b => le_total (rank a) (rank b)⟩
    have htrans : IsTrans SearchRow (fun a b => rank a ≤ rank b) :=
      ⟨fun _ _ _ hab hbc => le_trans hab hbc⟩
    have hs := List.sorted_insertionSort (fun a b => rank a ≤ rank b)
      (rows.filter ftsMatch)
    exact List.Pairwise.sublist (List.take_sublist _ _) hs
  · intro ftsMatch rank rows lim hlim
    have hlen : (List.insertionSort (fun a b => rank a ≤ rank b)
        (rows.filter ftsMatch)).length = (rows.filter ftsMatch).length :=
      (List.perm_insertionSort _ _).length_eq
    have htake : (List.insertionSort (fun a b => rank a ≤ rank b)
        (rows.filter ftsMatch)).take lim =
        List.insertionSort (fun a b => rank a ≤ rank b) (rows.filter ftsMatch) :=
      List.take_of_length_le (by rw [hlen]; exact hlim)
    unfold search_segments
    rw [htake]
    exact List.perm_insertionSort _ _

/-- Witness for C9's amended theorem: with the limit 50 not reached, the
two-row search result is a permutation of the two matching rows. -/
theorem search_order_rank_only_witness :
    ((cexRows.filter (fun _ => true)).length ≤ 50)
  ∧ (search_segments (fun _ => true) (fun _ => (-1 : ℚ)) cexRows 50).Perm
      (cexRows.filter (fun _ => true)) :=
  ⟨by decide,
   search_order_rank_only.2 (fun _ => true) (fun _ => (-1 : ℚ)) cexRows 50 (by decide)⟩

/-- C10: freshness gating as claimed — when the most recent successful
sync run completed less than 24 hours ago, `run_sync` with force false
issues no page request and returns the cached state unchanged; with
force true it always proceeds to fetch (at least one request is issued
and the gate is never taken); and the `needs_sync` decision depends only
on the completion time of the most recent `success` row. -/
theorem freshness_gate :
    (∀ (rows : List SyncStatusRow) (now : ℚ) (pre : List Nat)
       (script : List Resp) (m : Option Nat) (storeOk : Bool)
       (r : SyncStatusRow) (t : ℚ),
       (rows.filter (fun row => decide (row.status = "success"))).getLast? = some r →
       r.sync_completed = some t →
       now - t < 24 →
       run_sync false rows now pre script m storeOk = ⟨pre, rows, [], false, true, true⟩)
  ∧ (∀ (rows : List SyncStatusRow) (now : ℚ) (pre : List Nat)
       (script : List Resp) (m : Option Nat) (storeOk : Bool),
       (run_sync true rows now pre script m storeOk).requests ≠ [] ∧
       (run_sync true rows now pre script m storeOk).skipped = false)
  ∧ (∀ (rows rows2 : List SyncStatusRow) (now : ℚ),
       (rows.filter (fun row => decide (row.status = "success"))).getLast? =
         (rows2.filter (fun row => decide (row.status = "success"))).getLast? →
       needs_sync rows now 24 = needs_sync rows2 now 24) := by
  refine ⟨?_, ?_, ?_⟩
  · intro rows now pre script m storeOk r t h1 h2 h3
    have hns : needs_sync rows now 24 = false := by
      unfold needs_sync
      rw [h1]
      dsimp only
      rw [h2]
      dsimp only
      simp only [decide_eq_false_iff_not, not_lt]
      linarith
    simp [run_sync, hns]
  · intro rows now pre script m storeOk
    obtain ⟨t, ht⟩ := runLoop_requests_cons (fetch_all_segments_step m)
      CState.cursor cInit script
    have hrq : (run_sync true rows now pre script m storeOk).requests =
        (runLoop (fetch_all_segments_step m) CState.cursor cInit script).requests := by
      simp only [run_sync]
      split
      · rename_i hgate; exact absurd hgate (by simp)
      · split
        · rfl
        · rfl
        · split
          · rfl
          · split
            · rfl
            · rfl
    have hsk : (run_sync true rows now pre script m storeOk).skipped = false := by
      simp only [run_sync]
      split
      · rename_i hgate; exact absurd hgate (by simp)
      · split
        · rfl
        · rfl
        · split
          · rfl
          · split
            · rfl
            · rfl
    refine ⟨?_, hsk⟩
    rw [hrq, ht]
    simp
  · intro rows rows2 now h
    unfold needs_sync
    rw [h]

theorem two_sub_one_lt_24 : (2 : ℚ) - 1 < 24 := by norm_num

/-- A successful sync-status row completed at hour 1. -/
def freshRow : SyncStatusRow := ⟨some 0, some 1, "success", 5, none⟩

/-- Witness for C10 at a concrete history with a success one hour old
(now = 2): an unforced run issues no request and returns the cached
state; a forced run does not take the gate. -/
theorem freshness_gate_witness :
    (([freshRow].filter (fun row => decide (row.status = "success"))).getLast? =
      some freshRow)
  ∧ freshRow.sync_completed = some 1
  ∧ ((2 : ℚ) - 1 < 24)
  ∧ run_sync false [freshRow] 2 [9] [Resp.ok [1] none] none true =
      ⟨[9], [freshRow], [], false, true, true⟩
  ∧ (run_sync true [] 2 [9] [Resp.ok [1] none] none true).skipped = false :=
  ⟨rfl, rfl, two_sub_one_lt_24,
   freshness_gate.1 [freshRow] 2 [9] [Resp.ok [1] none] none true freshRow 1
     rfl rfl two_sub_one_lt_24,
   (freshness_gate.2.1 [] 2 [9] [Resp.ok [1] none] none true).2⟩
